import Mathlib

/-!
# Verification of the homeops reminder core

Shallow embedding of the event recurrence-matching and filtering logic of the
`remind` component (the spreadsheet variant in `remind/sheet.go`, plus the
historical Notion/enum variants it coexists with), together with proofs of the
spec's testable properties.

All `time.Time` values flowing through this pipeline are civil dates at
midnight JST (the entry point truncates `time.Now()` to midnight, and all
parsed cells are `YYYY/MM/DD` dates parsed at midnight JST), so a `time.Time`
is embedded as a civil date triple; `Before`/`After`/`Equal` on such values
coincide with the lexicographic order / equality on triples.
-/

namespace Homeops

/-- Decidable equality on `Except` results (for evaluating parser outcomes
on concrete inputs). -/
instance instDecidableEqExcept {ε α : Type} [DecidableEq ε] [DecidableEq α] :
    DecidableEq (Except ε α) := fun x y =>
  match x, y with
  | .ok a, .ok b =>
    if h : a = b then .isTrue (by rw [h])
    else .isFalse (by intro hc; cases hc; exact h rfl)
  | .error a, .error b =>
    if h : a = b then .isTrue (by rw [h])
    else .isFalse (by intro hc; cases hc; exact h rfl)
  | .ok _, .error _ => .isFalse (by intro hc; cases hc)
  | .error _, .ok _ => .isFalse (by intro hc; cases hc)

/-- A civil calendar date (embeds a midnight-JST `time.Time`). The Go zero
`time.Time` corresponds to `⟨1, 1, 1⟩` (January 1, year 1). -/
structure Date where
  year : Nat
  month : Nat
  day : Nat
deriving DecidableEq, Repr

/-- The Go zero `time.Time` as a civil date: 0001-01-01. -/
def dateZero : Date := ⟨1, 1, 1⟩

/-- `a.Before(b)` for midnight civil dates: strict lexicographic order. -/
def dateBefore (a b : Date) : Bool :=
  decide (a.year < b.year) ||
    (decide (a.year = b.year) &&
      (decide (a.month < b.month) ||
        (decide (a.month = b.month) && decide (a.day < b.day))))

/-- Non-strict order on civil dates, defined directly (used to state the
spec's `startDate <= d <= endDate` property, independently of `dateBefore`). -/
def dateLe (a b : Date) : Bool :=
  decide (a.year < b.year) ||
    (decide (a.year = b.year) &&
      (decide (a.month < b.month) ||
        (decide (a.month = b.month) && decide (a.day ≤ b.day))))

/-- Gregorian leap-year rule (as used by Go's `time` package). -/
def isLeapYear (y : Nat) : Bool :=
  (decide (y % 4 = 0) && decide (y % 100 ≠ 0)) || decide (y % 400 = 0)

/-- Number of days in a month of a given year (Go `daysIn`). -/
def daysInMonth (y m : Nat) : Nat :=
  if m = 2 then (if isLeapYear y then 29 else 28)
  else if m = 4 ∨ m = 6 ∨ m = 9 ∨ m = 11 then 30
  else 31

/-- A date triple that denotes an actual calendar date representable in the
`YYYY/MM/DD` text format (4-digit year). Every date produced by the pipeline's
date parser satisfies this. -/
def validDate (d : Date) : Prop :=
  1 ≤ d.year ∧ d.year ≤ 9999 ∧ 1 ≤ d.month ∧ d.month ≤ 12 ∧
    1 ≤ d.day ∧ d.day ≤ daysInMonth d.year d.month

instance (d : Date) : Decidable (validDate d) := by
  unfold validDate; infer_instance

/-- Absolute day number of a civil date (days since 0000-03-01, Gregorian),
the standard era/year-of-era computation. Total on `Nat` triples; agrees with
the calendar on valid dates. -/
def daysFromCivil (d : Date) : Nat :=
  let y := if d.month ≤ 2 then d.year - 1 else d.year
  let era := y / 400
  let yoe := y % 400
  let mp := (d.month + 9) % 12
  let doy := (153 * mp + 2) / 5 + d.day - 1
  let doe := yoe * 365 + yoe / 4 - yoe / 100 + doy
  era * 146097 + doe

/-- `t.Weekday()` with Go's numbering (Sunday = 0 … Saturday = 6);
0000-03-01 is a Wednesday (= 3). -/
def weekday (d : Date) : Nat :=
  (daysFromCivil d + 3) % 7

/-- ASCII lower-casing of one character (the fragment of `strings.ToLower`
exercised by the interval labels). -/
def lowerChar (c : Char) : Char :=
  if 'A' ≤ c ∧ c ≤ 'Z' then Char.ofNat (c.toNat + 32) else c

/-- `strings.ToLower` on the ASCII fragment. -/
def lowerStr (s : String) : String :=
  ⟨s.data.map lowerChar⟩

/-! ## Date text format

`remind/sheet.go` parses date cells with
`time.ParseInLocation("2006/01/02", dateStr, tz)`: exactly four year digits,
a slash, two month digits, a slash, two day digits, with Go's range
validation (month 1–12, day 1–`daysIn(month, year)`). The test helper
`eventsToValueRange` formats dates with `Format("2006/01/02")`
(zero-padded). -/

/-- The character for a decimal digit value (Go's `digits` table). -/
def digitChar (n : Nat) : Char :=
  match n with
  | 0 => '0' | 1 => '1' | 2 => '2' | 3 => '3' | 4 => '4'
  | 5 => '5' | 6 => '6' | 7 => '7' | 8 => '8' | _ => '9'

/-- Numeric value of a decimal digit character. -/
def digitVal (c : Char) : Nat := c.toNat - 48

/-- Go's month/day range validation in `time.Parse` (`"month out of
range"` / `"day out of range"`). -/
def mkValidDate (y m d : Nat) : Option Date :=
  if 1 ≤ m ∧ m ≤ 12 ∧ 1 ≤ d ∧ d ≤ daysInMonth y m then some ⟨y, m, d⟩
  else none

/-- Body of the `YYYY/MM/DD` parse once the ten characters are in hand:
fixed-width digit fields separated by slashes, then range validation. -/
def parseDate10 (y1 y2 y3 y4 c1 m1 m2 c2 d1 d2 : Char) : Option Date :=
  if c1 = '/' ∧ c2 = '/' ∧ y1.isDigit ∧ y2.isDigit ∧ y3.isDigit ∧ y4.isDigit ∧
      m1.isDigit ∧ m2.isDigit ∧ d1.isDigit ∧ d2.isDigit then
    mkValidDate
      (digitVal y1 * 1000 + digitVal y2 * 100 + digitVal y3 * 10 + digitVal y4)
      (digitVal m1 * 10 + digitVal m2)
      (digitVal d1 * 10 + digitVal d2)
  else none

/-- `time.ParseInLocation("2006/01/02", s, tz)` restricted to its success
set: exactly `YYYY/MM/DD` with Go's month/day range validation. -/
def parseDateString (s : String) : Option Date :=
  match s.data with
  | [y1, y2, y3, y4, c1, m1, m2, c2, d1, d2] =>
    parseDate10 y1 y2 y3 y4 c1 m1 m2 c2 d1 d2
  | _ => none

/-- Two-digit zero-padded field of `Format("2006/01/02")` (months and days
are at most two digits). -/
def pad2 (n : Nat) : List Char := [digitChar (n / 10), digitChar (n % 10)]

/-- Four-digit zero-padded year field of `Format("2006/01/02")`. -/
def pad4 (n : Nat) : List Char :=
  [digitChar (n / 1000 % 10), digitChar (n / 100 % 10),
   digitChar (n / 10 % 10), digitChar (n % 10)]

/-- `t.Format("2006/01/02")` for a civil date with a 4-digit year. -/
def formatDate (d : Date) : String :=
  ⟨pad4 d.year ++ '/' :: pad2 d.month ++ '/' :: pad2 d.day⟩

/-! ## Event data model and row parsing (`remind/sheet.go`) -/

/-- The `Event` record of the `remind` component (spreadsheet variant):
string interval label, start and end dates. An end date is always a concrete
date here; `parseRow` never leaves it absent. -/
structure Event where
  Name : String
  Interval : String
  Start : Date
  End : Date
deriving DecidableEq, Repr

/-- Column indices `nameIdx`, `intervalIdx`, `startDateIdx`, `endDateIdx`. -/
def nameIdx : Nat := 0

/-- Index of the interval column. -/
def intervalIdx : Nat := 1

/-- Index of the start-date column. -/
def startDateIdx : Nat := 2

/-- Index of the end-date column. -/
def endDateIdx : Nat := 3

/-- `SheetSource.parseDate`: a missing or empty cell yields `today` (the
wall clock's civil date in JST, passed explicitly here); otherwise the cell
must parse as `YYYY/MM/DD`. -/
def parseDate (r : List String) (index : Nat) (today : Date) :
    Except String Date :=
  match r.get? index with
  | none => .ok today
  | some s =>
    if s = "" then .ok today
    else
      match parseDateString s with
      | some t => .ok t
      | none => .error "failed to parse date from column"

/-- `SheetSource.parseValue`: a missing or empty cell is an error. -/
def parseValue (r : List String) (index : Nat) : Except String String :=
  match r.get? index with
  | none => .error "failed to parse value from column"
  | some s =>
    if s = "" then .error "failed to parse value from column"
    else .ok s

/-- `SheetSource.parseRow`: name, interval, start date, end date, in that
order; the first failure aborts the row. `today` is the ambient clock's
civil date consumed by `parseDate`'s default. -/
def parseRow (r : List String) (today : Date) : Except String Event := do
  let name ← parseValue r nameIdx
  let interval ← parseValue r intervalIdx
  let startDate ← parseDate r startDateIdx today
  let endDate ← parseDate r endDateIdx today
  return { Name := name, Interval := interval, Start := startDate, End := endDate }

/-! ## Matching and filtering (`remind/sheet.go`) -/

/-- `SheetSource.isMatch`: switch on `strings.ToLower(event.Interval)`.
`"oneshot"` compares the full dates (`t.Equal(event.Start)`, which for
midnight civil dates is date equality); unknown labels hit the warning
default and never match. -/
def isMatch (event : Event) (t : Date) : Bool :=
  if lowerStr event.Interval = "oneshot" then decide (t = event.Start)
  else if lowerStr event.Interval = "weekly" then
    decide (weekday t = weekday event.Start)
  else if lowerStr event.Interval = "monthly" then
    decide (t.day = event.Start.day)
  else if lowerStr event.Interval = "yearly" then
    decide (t.month = event.Start.month) && decide (t.day = event.Start.day)
  else false

/-- The inclusion test of `SheetSource.filter`: an event is kept for date `t`
unless `t.Before(e.Start) || t.After(e.End)`. -/
def inBounds (e : Event) (t : Date) : Bool :=
  !(dateBefore t e.Start || dateBefore e.End t)

/-- `SheetSource.filter`: keep, in order, the events whose window contains
`t` and whose recurrence matches `t`. -/
def filterEvents (events : List Event) (t : Date) : List Event :=
  match events with
  | [] => []
  | e :: rest =>
    if dateBefore t e.Start || dateBefore e.End t then filterEvents rest t
    else if !isMatch e t then filterEvents rest t
    else e :: filterEvents rest t

/-- The row-parsing loop of `SheetSource.Fetch`: parse each data row,
skipping rows that fail to parse. -/
def parseRows (rows : List (List String)) (today : Date) : List Event :=
  match rows with
  | [] => []
  | r :: rest =>
    match parseRow r today with
    | .error _ => parseRows rest today
    | .ok e => e :: parseRows rest today

/-- `SheetSource.Fetch`: the provider response is either an error
(propagated verbatim) or a list of raw rows; fewer than 2 rows returns the
empty list, otherwise the header row is dropped, the rest parsed
(failures skipped) and filtered for the target date `t`. -/
def fetch (resp : Except String (List (List String))) (today t : Date) :
    Except String (List Event) :=
  match resp with
  | .error err => .error err
  | .ok values =>
    if values.length < 2 then .ok []
    else
      let dataRows := values.drop 1
      let events := parseRows dataRows today
      .ok (filterEvents events t)

/-! ## Notion variant (`getEvents`/`validateEvent`, historical) -/

/-- `sameDate` of the Notion variant: same year, month and day. -/
def sameDate (a b : Date) : Bool :=
  decide (a.year = b.year) && decide (a.month = b.month) &&
    decide (a.day = b.day)

/-- `validateEvent` of the Notion variant: when `End` is non-zero the date
must satisfy `Start <= t < End` (note the exclusive end,
`!t.Before(event.End)` rejects `t = End`); when `End` is the zero time no
bounds are checked at all; then the recurrence switch decides. -/
def validateEvent (event : Event) (t : Date) : Bool :=
  if !decide (event.End = dateZero) &&
      (dateBefore t event.Start || !dateBefore t event.End) then false
  else if lowerStr event.Interval = "oneshot" then sameDate t event.Start
  else if lowerStr event.Interval = "weekly" then
    decide (weekday t = weekday event.Start)
  else if lowerStr event.Interval = "monthly" then
    decide (t.day = event.Start.day)
  else if lowerStr event.Interval = "yearly" then
    decide (t.month = event.Start.month) && decide (t.day = event.Start.day)
  else false

/-! ## Enum variant (`parseInterval` / `Event.isMatch`, historical) -/

/-- The `Interval` enumeration of the typed historical variant. -/
inductive Interval where
  | onetime
  | weekly
  | monthly
  | yearly
deriving DecidableEq, Repr

/-- `parseInterval`: case-insensitive match against the four canonical
labels; note `"oneshot"` is not among them. -/
def parseInterval (s : String) : Except String Interval :=
  if lowerStr s = "onetime" then .ok .onetime
  else if lowerStr s = "weekly" then .ok .weekly
  else if lowerStr s = "monthly" then .ok .monthly
  else if lowerStr s = "yearly" then .ok .yearly
  else .error ("invalid interval: " ++ s)

/-- The typed variant's `Event` (string name, `Interval` enum, dates). -/
structure EventE where
  Name : String
  Interval : Interval
  StartDate : Date
  EndDate : Date
deriving DecidableEq, Repr

/-- The typed variant's `Event.isMatch`: switch on the `Interval` enum;
`onetime` compares year, month and day. -/
def isMatchE (e : EventE) (t : Date) : Bool :=
  match e.Interval with
  | .onetime =>
    decide (t.year = e.StartDate.year) && decide (t.month = e.StartDate.month)
      && decide (t.day = e.StartDate.day)
  | .weekly => decide (weekday t = weekday e.StartDate)
  | .monthly => decide (t.day = e.StartDate.day)
  | .yearly =>
    decide (t.month = e.StartDate.month) && decide (t.day = e.StartDate.day)

/-- `eventsToValueRange`'s serialization of one event to its 4 positional
fields (test helper in the sheet variant's test file). -/
def serializeEvent (e : Event) : List String :=
  [e.Name, e.Interval, formatDate e.Start, formatDate e.End]

/-! ## Supporting lemmas -/

/-- The non-strict date order is the negation of the strict one. -/
theorem dateLe_eq_not_dateBefore (a b : Date) : dateLe a b = !dateBefore b a := by
  rw [Bool.eq_iff_iff]
  simp only [dateLe, dateBefore, Bool.or_eq_true, Bool.and_eq_true,
    decide_eq_true_eq, Bool.not_eq_true', Bool.or_eq_false_iff,
    Bool.and_eq_false_iff, decide_eq_false_iff_not]
  omega

/-- The parsing loop of `Fetch` is `filterMap` of the row parser. -/
theorem parseRows_eq_filterMap (rows : List (List String)) (today : Date) :
    parseRows rows today = rows.filterMap fun r => (parseRow r today).toOption := by
  induction rows with
  | nil => rfl
  | cons r rest ih =>
    simp only [parseRows, List.filterMap_cons]
    cases h : parseRow r today with
    | error msg => simp [Except.toOption, ih]
    | ok e => simp [Except.toOption, ih]

/-- The filtering loop of `filter` is `List.filter` with the combined
bounds-and-recurrence predicate. -/
theorem filterEvents_eq_filter (events : List Event) (t : Date) :
    filterEvents events t = events.filter fun e => inBounds e t && isMatch e t := by
  induction events with
  | nil => rfl
  | cons e rest ih =>
    simp only [filterEvents, List.filter_cons]
    cases hb : (dateBefore t e.Start || dateBefore e.End t) <;>
      cases hm : isMatch e t <;>
        simp [inBounds, hb, hm, ih]

/-! ## Claim C1: bounds check -/

/-- C1, counterexample. The claim asserts that when `endDate` is absent
(the Go zero time) the bounds check accepts exactly the dates
`d ≥ startDate`, and that when `endDate` is present both endpoints are
inclusive. At the concrete event with start 2025-01-01 and the zero end
date, the date 2025-01-05 satisfies `d ≥ startDate`, yet `SheetSource.filter`'s
inclusion test rejects it (the zero time is an ordinary far-past instant, not
"no upper bound"). Moreover the Notion-variant `validateEvent`, at an event
with window 2025-01-10 .. 2025-02-10 and a monthly recurrence matching
2025-02-10, rejects the end date itself — its end bound is exclusive. -/
theorem inBounds_zero_end_not_unbounded :
    (inBounds ⟨"X", "monthly", ⟨2025, 1, 1⟩, dateZero⟩ ⟨2025, 1, 5⟩ = false ∧
      dateLe (⟨2025, 1, 1⟩ : Date) ⟨2025, 1, 5⟩ = true) ∧
    (validateEvent ⟨"B", "monthly", ⟨2025, 1, 10⟩, ⟨2025, 2, 10⟩⟩ ⟨2025, 2, 10⟩
        = false ∧
      dateLe (⟨2025, 1, 10⟩ : Date) ⟨2025, 2, 10⟩ = true ∧
      isMatch ⟨"B", "monthly", ⟨2025, 1, 10⟩, ⟨2025, 2, 10⟩⟩ ⟨2025, 2, 10⟩
        = true) := by
  decide

/-- The Notion variant's year/month/day comparison is equality of civil
dates. -/
theorem sameDate_eq_decide (a b : Date) : sameDate a b = decide (a = b) := by
  rw [Bool.eq_iff_iff]
  simp only [sameDate, Bool.and_eq_true, decide_eq_true_eq]
  constructor
  · rintro ⟨⟨h1, h2⟩, h3⟩
    cases a
    cases b
    simp_all
  · intro h
    subst h
    simp

/-- `validateEvent` in one equation: the bounds gate is "end absent, or
`Start ≤ d < End`", and the recurrence switch is exactly the sheet
variant's `isMatch`. -/
theorem validateEvent_eq_gate_and_match (e : Event) (d : Date) :
    validateEvent e d =
      ((decide (e.End = dateZero) || (!dateBefore d e.Start && dateBefore d e.End))
        && isMatch e d) := by
  rw [validateEvent, isMatch]
  cases hz : decide (e.End = dateZero) <;>
    cases hb1 : dateBefore d e.Start <;>
      cases hb2 : dateBefore d e.End <;>
        simp [sameDate_eq_decide]

/-- C1, amended: `SheetSource.filter`'s inclusion test accepts `(e, d)` iff
`e.Start ≤ d ≤ e.End` with both endpoints inclusive; the end date is always a
concrete date there (a zero end date acts as an ordinary far-past date, not
as "no upper bound"). In the Notion-variant `validateEvent`, when the end
date is present (non-zero) acceptance holds iff `e.Start ≤ d < e.End` — the
end bound is exclusive — together with a recurrence match; when the end date
is absent (zero) `validateEvent` coincides with the bare recurrence matcher,
so no bounds are checked at all (even `d < e.Start` can be accepted). -/
theorem inBounds_iff_between (e : Event) (d : Date) :
    (inBounds e d = true ↔ (dateLe e.Start d = true ∧ dateLe d e.End = true)) ∧
    (e.End ≠ dateZero →
      (validateEvent e d = true ↔
        (dateLe e.Start d = true ∧ dateBefore d e.End = true ∧
          isMatch e d = true))) ∧
    (e.End = dateZero → validateEvent e d = isMatch e d) := by
  refine ⟨?_, ?_, ?_⟩
  · rw [inBounds, dateLe_eq_not_dateBefore, dateLe_eq_not_dateBefore]
    cases dateBefore d e.Start <;> cases dateBefore e.End d <;> simp
  · intro hz
    rw [validateEvent_eq_gate_and_match, dateLe_eq_not_dateBefore]
    simp [hz, and_assoc]
  · intro hz
    rw [validateEvent_eq_gate_and_match]
    simp [hz]

/-- C1, witness for the amended theorem: the window 2025-01-01 .. 2025-01-10
contains its end date; a bounded `validateEvent` accepts a date in the
half-open window with a monthly match; and an unbounded (zero-end)
`validateEvent` accepts a weekday-matching date strictly before the start
date. -/
theorem inBounds_iff_between_witness :
    inBounds ⟨"A", "monthly", ⟨2025, 1, 1⟩, ⟨2025, 1, 10⟩⟩ ⟨2025, 1, 10⟩ = true ∧
    validateEvent ⟨"C", "monthly", ⟨2025, 1, 10⟩, ⟨2025, 2, 20⟩⟩ ⟨2025, 2, 10⟩
      = true ∧
    validateEvent ⟨"W", "weekly", ⟨2025, 1, 10⟩, dateZero⟩ ⟨2025, 1, 3⟩
      = true :=
  ⟨(inBounds_iff_between ⟨"A", "monthly", ⟨2025, 1, 1⟩, ⟨2025, 1, 10⟩⟩
      ⟨2025, 1, 10⟩).1.mpr (by decide),
   ((inBounds_iff_between ⟨"C", "monthly", ⟨2025, 1, 10⟩, ⟨2025, 2, 20⟩⟩
      ⟨2025, 2, 10⟩).2.1 (by decide)).mpr (by decide),
   ((inBounds_iff_between ⟨"W", "weekly", ⟨2025, 1, 10⟩, dateZero⟩
      ⟨2025, 1, 3⟩).2.2 rfl).trans (by decide)⟩

/-! ## Claim C2: one-time matching -/

/-- C2, counterexample. The claim treats the labels `"oneshot"` and
`"onetime"` interchangeably as ONE_TIME and asserts the matcher returns true
whenever the date has the same year, month and day as the start date. But
`SheetSource.isMatch` has no `"onetime"` case: an event labelled
`"onetime"` never matches, even on its own start date. -/
theorem isMatch_onetime_never_matches :
    isMatch ⟨"A", "onetime", ⟨2025, 3, 15⟩, ⟨2025, 3, 15⟩⟩ ⟨2025, 3, 15⟩
      = false ∧
    sameDate ⟨2025, 3, 15⟩ ⟨2025, 3, 15⟩ = true := by
  decide

/-- C2, amended: in `SheetSource.isMatch` only the label `"oneshot"`
(case-insensitively) denotes one-time, and for it the matcher returns true
iff the date equals the start date (same year, month and day for civil
dates); the label `"onetime"` falls to the warning default and never
matches. (In the typed historical variant, `Event.isMatch` at interval
`onetime` returns true iff the date has the same year, month and day as the
start date — there the parseable label is `"onetime"`, not `"oneshot"`.) -/
theorem isMatch_oneshot_iff_same_date (e : Event) (d : Date) :
    (lowerStr e.Interval = "oneshot" → (isMatch e d = true ↔ d = e.Start)) ∧
    (lowerStr e.Interval = "onetime" → isMatch e d = false) ∧
    (∀ ee : EventE, ee.Interval = .onetime →
      (isMatchE ee d = true ↔ sameDate d ee.StartDate = true)) := by
  refine ⟨?_, ?_, ?_⟩
  · intro h
    simp [isMatch, h]
  · intro h
    simp [isMatch, h]
  · intro ee h
    simp [isMatchE, h, sameDate]

/-- C2, witness: an `"oneshot"` event matches exactly on its start date, an
`"onetime"`-labelled event matches never, and the typed variant matches
`onetime` on the same civil date. -/
theorem isMatch_oneshot_iff_same_date_witness :
    isMatch ⟨"A", "Oneshot", ⟨2025, 3, 15⟩, ⟨2025, 12, 31⟩⟩ ⟨2025, 3, 15⟩
      = true ∧
    isMatch ⟨"A", "onetime", ⟨2025, 3, 15⟩, ⟨2025, 12, 31⟩⟩ ⟨2025, 3, 15⟩
      = false ∧
    isMatchE ⟨"A", .onetime, ⟨2025, 3, 15⟩, ⟨2025, 12, 31⟩⟩ ⟨2025, 3, 15⟩
      = true :=
  ⟨(isMatch_oneshot_iff_same_date ⟨"A", "Oneshot", ⟨2025, 3, 15⟩,
      ⟨2025, 12, 31⟩⟩ ⟨2025, 3, 15⟩).1 (by decide) |>.mpr rfl,
   (isMatch_oneshot_iff_same_date ⟨"A", "onetime", ⟨2025, 3, 15⟩,
      ⟨2025, 12, 31⟩⟩ ⟨2025, 3, 15⟩).2.1 (by decide),
   ((isMatch_oneshot_iff_same_date ⟨"A", "onetime", ⟨2025, 3, 15⟩,
      ⟨2025, 12, 31⟩⟩ ⟨2025, 3, 15⟩).2.2 ⟨"A", .onetime, ⟨2025, 3, 15⟩,
      ⟨2025, 12, 31⟩⟩ rfl).mpr (by decide)⟩

/-! ## Claim C3: Fetch pipeline -/

/-- C3, counterexample. The claim asserts `Fetch` returns exactly the events
surviving parsing (header dropped, unparsable rows skipped), and in
particular that a 3-data-row batch whose second row has an invalid date
yields exactly the 2 events of rows 1 and 3. But `Fetch` additionally
filters by bounds and recurrence: in this concrete batch rows 1 and 3 parse
fine (2 parse survivors), yet at a target date after their windows `Fetch`
returns no events at all. -/
theorem fetch_not_only_parsing :
    fetch (.ok [["Name", "Interval", "StartDate", "EndDate"],
                ["A", "weekly", "2025/01/01", "2025/01/31"],
                ["B", "weekly", "not-a-date", "2025/01/31"],
                ["C", "weekly", "2025/01/01", "2025/01/31"]])
        ⟨2024, 1, 1⟩ ⟨2025, 6, 15⟩ = .ok [] ∧
    (parseRows [["A", "weekly", "2025/01/01", "2025/01/31"],
                ["B", "weekly", "not-a-date", "2025/01/31"],
                ["C", "weekly", "2025/01/01", "2025/01/31"]]
        ⟨2024, 1, 1⟩).length = 2 := by
  decide

/-- C3, amended: on a successful provider response `Fetch` drops the header
row, parses the remaining rows in order skipping failures, and returns — in
original row order — exactly the parsed events that are in bounds and whose
recurrence matches the target date (fewer than 2 raw rows yield the empty
list). In particular, for a batch of 3 data rows where row 2 has an invalid
date and rows 1 and 3 are in bounds and matching, `Fetch` returns exactly
the 2 events of rows 1 and 3. -/
theorem fetch_ok_characterization (rows : List (List String)) (today t : Date) :
    fetch (.ok rows) today t =
      .ok (if rows.length < 2 then []
        else ((rows.drop 1).filterMap fun r => (parseRow r today).toOption).filter
          fun e => inBounds e t && isMatch e t) ∧
    fetch (.ok [["Name", "Interval", "StartDate", "EndDate"],
                ["A", "weekly", "2025/01/01", "2025/12/31"],
                ["B", "weekly", "not-a-date", "2025/12/31"],
                ["C", "monthly", "2024/12/08", "2025/12/31"]])
        ⟨2025, 1, 1⟩ ⟨2025, 1, 8⟩ =
      .ok [⟨"A", "weekly", ⟨2025, 1, 1⟩, ⟨2025, 12, 31⟩⟩,
           ⟨"C", "monthly", ⟨2024, 12, 8⟩, ⟨2025, 12, 31⟩⟩] := by
  constructor
  · rw [fetch]
    by_cases h : rows.length < 2
    · rw [if_pos h, if_pos h]
    · rw [if_neg h, if_neg h]
      simp only [parseRows_eq_filterMap, filterEvents_eq_filter]
  · decide

/-! ## Claim C4: error propagation -/

/-- C4: `Fetch` propagates a provider error verbatim and yields no events;
every successful provider response produces a successful (possibly empty)
event list — in particular a response of fewer than 2 rows yields the empty
list with no error. The upstream failure is thus the only error condition
of `Fetch`. -/
theorem fetch_error_propagation (err : String) (rows : List (List String))
    (today t : Date) :
    fetch (.error err) today t = .error err ∧
    (rows.length < 2 → fetch (.ok rows) today t = .ok []) ∧
    ∃ events, fetch (.ok rows) today t = .ok events := by
  refine ⟨rfl, ?_, ?_⟩
  · intro h
    rw [fetch, if_pos h]
  · rw [fetch]
    by_cases h : rows.length < 2
    · exact ⟨[], by rw [if_pos h]⟩
    · exact ⟨_, by rw [if_neg h]⟩

/-- C4, witness: the provider error of the repository's test propagates
verbatim, and a header-only response yields the empty list. -/
theorem fetch_error_propagation_witness :
    fetch (.error "API permission denied") ⟨2025, 1, 1⟩ ⟨2025, 1, 1⟩
        = .error "API permission denied" ∧
    fetch (.ok [["Name", "Interval", "StartDate", "EndDate"]])
        ⟨2025, 1, 1⟩ ⟨2025, 1, 1⟩ = .ok [] :=
  ⟨(fetch_error_propagation "API permission denied" [] ⟨2025, 1, 1⟩
      ⟨2025, 1, 1⟩).1,
   (fetch_error_propagation "API permission denied"
      [["Name", "Interval", "StartDate", "EndDate"]] ⟨2025, 1, 1⟩
      ⟨2025, 1, 1⟩).2.1 (by decide)⟩

/-! ## Claim C5: interval validation -/

/-- C5, counterexample. The claim asserts the row parser accepts the
interval field iff it case-insensitively matches one of
"onetime"/"oneshot"/"weekly"/"monthly"/"yearly" and fails with
`UnknownInterval` otherwise. But `SheetSource.parseRow` performs no interval
validation at all — the unknown label `"Daily"` is accepted — while the
typed variant's `parseInterval` rejects the alias `"oneshot"`. -/
theorem parseRow_accepts_unknown_interval :
    parseRow ["E", "Daily", "2025/01/01", "2025/01/02"] ⟨2025, 7, 1⟩ =
      .ok ⟨"E", "Daily", ⟨2025, 1, 1⟩, ⟨2025, 1, 2⟩⟩ ∧
    parseInterval "oneshot" = .error "invalid interval: oneshot" := by
  decide

/-- C5, amended: `SheetSource.parseRow` accepts any non-empty interval label
(no `UnknownInterval` check in the sheet parser; unknown labels only surface
at match time, where they never match); it is the typed variant's
`parseInterval` that accepts a label iff it case-insensitively matches one
of "onetime", "weekly", "monthly", "yearly" — and the alias "oneshot" is
not among them. -/
theorem parseInterval_characterization (s : String) (today : Date) :
    ((∃ i, parseInterval s = .ok i) ↔
      lowerStr s ∈ ["onetime", "weekly", "monthly", "yearly"]) ∧
    (s ≠ "" → parseRow ["E", s, "2025/01/01", "2025/01/02"] today =
      .ok ⟨"E", s, ⟨2025, 1, 1⟩, ⟨2025, 1, 2⟩⟩) := by
  constructor
  · rw [parseInterval]
    by_cases h1 : lowerStr s = "onetime"
    · simp [h1]
    · rw [if_neg h1]
      by_cases h2 : lowerStr s = "weekly"
      · simp [h2]
      · rw [if_neg h2]
        by_cases h3 : lowerStr s = "monthly"
        · simp [h3]
        · rw [if_neg h3]
          by_cases h4 : lowerStr s = "yearly"
          · simp [h4]
          · rw [if_neg h4]
            simp [h1, h2, h3, h4]
  · intro hs
    have h1 : parseValue ["E", s, "2025/01/01", "2025/01/02"] intervalIdx =
        .ok s := by
      rw [parseValue]
      simp only [intervalIdx, List.get?]
      rw [if_neg hs]
    simp only [parseRow, h1]
    rfl

/-- C5, witness: the unknown label `"Daily"` passes the sheet row parser,
and `parseInterval` accepts the case variant `"Weekly"`. -/
theorem parseInterval_characterization_witness :
    parseRow ["E", "Daily", "2025/03/01", "2025/03/02"] ⟨2025, 1, 1⟩ =
      .ok ⟨"E", "Daily", ⟨2025, 3, 1⟩, ⟨2025, 3, 2⟩⟩ ∧
    ∃ i, parseInterval "Weekly" = .ok i :=
  ⟨by
    have h := (parseInterval_characterization "Daily" ⟨2025, 1, 1⟩).2
      (by decide)
    decide,
   (parseInterval_characterization "Weekly" ⟨2025, 1, 1⟩).1.mpr (by decide)⟩

/-! ## Claim C6: insufficient columns -/

/-- C6, counterexample. The claim asserts every row with fewer than 4 fields
fails with `InsufficientColumns`. But `SheetSource.parseDate` treats a
missing date cell as "default to today", so a 2-field row with non-empty
name and interval parses successfully (both dates become today). -/
theorem parseRow_two_fields_succeeds :
    parseRow ["Some Event", "Weekly"] ⟨2025, 1, 15⟩ =
      .ok ⟨"Some Event", "Weekly", ⟨2025, 1, 15⟩, ⟨2025, 1, 15⟩⟩ := by
  decide

/-- C6, amended: `parseRow` fails only when the name or interval position is
missing or empty, or when a present non-empty date cell is malformed (so
every row with fewer than 2 fields fails); missing date positions are not
errors — they default to today — so a row with exactly the 2 fields name
and interval (both non-empty) parses successfully with both dates equal to
today, and a 3-field row parses successfully exactly when its third cell is
empty (start defaults to today) or a well-formed `YYYY/MM/DD` date, the end
date defaulting to today in either case. There is no distinguished
`InsufficientColumns` error. -/
theorem parseRow_missing_fields (r : List String) (today : Date) :
    (r.length < 2 → ∃ msg, parseRow r today = .error msg) ∧
    (∀ name interval : String, name ≠ "" → interval ≠ "" →
      parseRow [name, interval] today = .ok ⟨name, interval, today, today⟩) ∧
    (∀ name interval sd : String, name ≠ "" → interval ≠ "" →
      parseRow [name, interval, sd] today =
        if sd = "" then .ok ⟨name, interval, today, today⟩
        else
          match parseDateString sd with
          | some dt => .ok ⟨name, interval, dt, today⟩
          | none => .error "failed to parse date from column") := by
  refine ⟨?_, ?_, ?_⟩
  · intro h
    match r, h with
    | [], _ => exact ⟨"failed to parse value from column", rfl⟩
    | [a], _ =>
      by_cases ha : a = ""
      · subst ha
        exact ⟨"failed to parse value from column", rfl⟩
      · refine ⟨"failed to parse value from column", ?_⟩
        have h0 : parseValue [a] nameIdx = .ok a := by
          rw [parseValue]
          simp only [nameIdx, List.get?]
          rw [if_neg ha]
        simp only [parseRow, h0]
        rfl
  · intro name interval hn hi
    have h0 : parseValue [name, interval] nameIdx = .ok name := by
      rw [parseValue]
      simp only [nameIdx, List.get?]
      rw [if_neg hn]
    have h1 : parseValue [name, interval] intervalIdx = .ok interval := by
      rw [parseValue]
      simp only [intervalIdx, List.get?]
      rw [if_neg hi]
    simp only [parseRow, h0, h1]
    rfl
  · intro name interval sd hn hi
    have h0 : parseValue [name, interval, sd] nameIdx = .ok name := by
      rw [parseValue]
      simp only [nameIdx, List.get?]
      rw [if_neg hn]
    have h1 : parseValue [name, interval, sd] intervalIdx = .ok interval := by
      rw [parseValue]
      simp only [intervalIdx, List.get?]
      rw [if_neg hi]
    have h2 : parseDate [name, interval, sd] startDateIdx today =
        (if sd = "" then .ok today
         else
           match parseDateString sd with
           | some dt => .ok dt
           | none => .error "failed to parse date from column") := by
      rw [parseDate]
      simp only [startDateIdx, List.get?]
    have h3 : parseDate [name, interval, sd] endDateIdx today = .ok today := by
      rw [parseDate]
      simp only [endDateIdx, List.get?]
    simp only [parseRow, h0, h1, h2, h3]
    by_cases hsd : sd = ""
    · simp only [if_pos hsd]
      rfl
    · simp only [if_neg hsd]
      cases hps : parseDateString sd with
      | some dt =>
        simp only [hps]
        rfl
      | none =>
        simp only [hps]
        rfl

/-- C6, witness: a 1-field row fails; the 2-field row of the counterexample
parses with both dates defaulted; a 3-field row with a well-formed start
date parses with the end date defaulted; and a 3-field row with a malformed
start date fails. -/
theorem parseRow_missing_fields_witness :
    (∃ msg, parseRow ["OnlyName"] ⟨2025, 1, 15⟩ = .error msg) ∧
    parseRow ["Trash Day", "Monthly"] ⟨2025, 1, 15⟩ =
      .ok ⟨"Trash Day", "Monthly", ⟨2025, 1, 15⟩, ⟨2025, 1, 15⟩⟩ ∧
    parseRow ["A", "Weekly", "2025/03/05"] ⟨2025, 1, 15⟩ =
      .ok ⟨"A", "Weekly", ⟨2025, 3, 5⟩, ⟨2025, 1, 15⟩⟩ ∧
    parseRow ["A", "Weekly", "not-a-date"] ⟨2025, 1, 15⟩ =
      .error "failed to parse date from column" :=
  ⟨(parseRow_missing_fields ["OnlyName"] ⟨2025, 1, 15⟩).1 (by decide),
   (parseRow_missing_fields [] ⟨2025, 1, 15⟩).2.1 "Trash Day" "Monthly"
     (by decide) (by decide),
   ((parseRow_missing_fields [] ⟨2025, 1, 15⟩).2.2 "A" "Weekly" "2025/03/05"
     (by decide) (by decide)).trans (by decide),
   ((parseRow_missing_fields [] ⟨2025, 1, 15⟩).2.2 "A" "Weekly" "not-a-date"
     (by decide) (by decide)).trans (by decide)⟩

/-! ## Claim C7: purity of row parsing -/

/-- C7, counterexample. The claim asserts `parseRow` has no dependence on
the current date. But `parseDate` defaults a missing date cell to the
wall clock's civil date "today", so the same 2-field row parses to different
events on different days. -/
theorem parseRow_depends_on_today :
    parseRow ["A", "Weekly"] ⟨2025, 1, 1⟩ ≠
      parseRow ["A", "Weekly"] ⟨2025, 6, 15⟩ := by
  decide

/-- C7, amended: `parseRow` is deterministic as a function of the row and
the current date (it has no other effects); for every row whose start-date
and end-date cells are both present and non-empty, the result is
independent of the current date. Rows with a missing or empty date cell
are the exception: there the `time.Now()`-derived "today" default makes the
result depend on the wall clock. -/
theorem parseRow_deterministic (r : List String) (t1 t2 : Date)
    (hs : (r.get? startDateIdx).getD "" ≠ "")
    (he : (r.get? endDateIdx).getD "" ≠ "") :
    parseRow r t1 = parseRow r t2 := by
  have key : ∀ (i : Nat), (r.get? i).getD "" ≠ "" →
      parseDate r i t1 = parseDate r i t2 := by
    intro i h
    rw [parseDate, parseDate]
    cases hg : r.get? i with
    | none =>
      rw [hg] at h
      simp at h
    | some s =>
      rw [hg] at h
      simp only [Option.getD_some] at h
      dsimp only
      rw [if_neg h, if_neg h]
  simp only [parseRow, key startDateIdx hs, key endDateIdx he]

/-- C7, witness: a fully populated row parses identically under two
different current dates. -/
theorem parseRow_deterministic_witness :
    parseRow ["A", "Weekly", "2025/01/01", "2025/01/31"] ⟨2025, 1, 1⟩ =
      parseRow ["A", "Weekly", "2025/01/01", "2025/01/31"] ⟨2025, 6, 15⟩ :=
  parseRow_deterministic ["A", "Weekly", "2025/01/01", "2025/01/31"]
    ⟨2025, 1, 1⟩ ⟨2025, 6, 15⟩ (by decide) (by decide)

/-! ## Claim C8: month-end overflow -/

/-- C8: MONTHLY and YEARLY matching has no month-end special case — an
event whose start date has day-of-month 31 never matches any date lying in
a month with fewer than 31 days (the day-of-month equality can never
hold there). -/
theorem day31_never_matches_short_month (e : Event) (d : Date)
    (hint : lowerStr e.Interval = "monthly" ∨ lowerStr e.Interval = "yearly")
    (h31 : e.Start.day = 31)
    (hd : d.day ≤ daysInMonth d.year d.month)
    (hshort : daysInMonth d.year d.month < 31) :
    isMatch e d = false := by
  have hne : d.day ≠ e.Start.day := by omega
  cases hint with
  | inl h => simp [isMatch, h, hne]
  | inr h => simp [isMatch, h, hne]

/-- C8, witness: a monthly event starting January 31, 2025 does not fire on
April 30, 2025 (April has 30 days). -/
theorem day31_never_matches_short_month_witness :
    isMatch ⟨"E", "monthly", ⟨2025, 1, 31⟩, ⟨2025, 12, 31⟩⟩ ⟨2025, 4, 30⟩
      = false :=
  day31_never_matches_short_month
    ⟨"E", "monthly", ⟨2025, 1, 31⟩, ⟨2025, 12, 31⟩⟩ ⟨2025, 4, 30⟩
    (Or.inl (by decide)) rfl (by decide) (by decide)

/-! ## Claim C10: case-insensitive matching -/

/-- C10: `SheetSource.isMatch` only inspects the interval label through
`strings.ToLower`, so replacing the stored label by any case variant of
itself (same lower-casing) leaves the matcher's result unchanged for every
event and date, even though the sheet parser stored the label without any
normalization. -/
theorem isMatch_case_insensitive (e : Event) (s : String) (d : Date)
    (h : lowerStr s = lowerStr e.Interval) :
    isMatch { e with Interval := s } d = isMatch e d := by
  simp only [isMatch]
  rw [h]

/-- C10, witness: the labels `"WEEKLY"` and `"weekly"` give the same match
result at a concrete event and date. -/
theorem isMatch_case_insensitive_witness :
    isMatch ⟨"A", "WEEKLY", ⟨2025, 1, 1⟩, ⟨2025, 12, 31⟩⟩ ⟨2025, 1, 8⟩ =
      isMatch ⟨"A", "weekly", ⟨2025, 1, 1⟩, ⟨2025, 12, 31⟩⟩ ⟨2025, 1, 8⟩ :=
  isMatch_case_insensitive ⟨"A", "weekly", ⟨2025, 1, 1⟩, ⟨2025, 12, 31⟩⟩
    "WEEKLY" ⟨2025, 1, 8⟩ (by decide)

/-! ## Claim C9: row-parsing round trip -/

/-- A decimal digit character is recognized as a digit. -/
theorem digitChar_isDigit (n : Nat) (h : n ≤ 9) : (digitChar n).isDigit = true := by
  interval_cases n <;> decide

/-- Formatting then reading back a decimal digit is the identity. -/
theorem digitVal_digitChar (n : Nat) (h : n ≤ 9) : digitVal (digitChar n) = n := by
  interval_cases n <;> decide

/-- A formatted date is never the empty string. -/
theorem formatDate_ne_empty (d : Date) : formatDate d ≠ "" := by
  intro h
  have h2 : (pad4 d.year ++ '/' :: pad2 d.month ++ '/' :: pad2 d.day) =
      ([] : List Char) := congrArg String.data h
  simp [pad4] at h2

/-- Parsing a formatted valid date recovers the date: the `YYYY/MM/DD`
format and Go's fixed-width date parse are mutually inverse on valid
dates. -/
theorem parseDateString_formatDate (d : Date) (h : validDate d) :
    parseDateString (formatDate d) = some d := by
  obtain ⟨h1, h2, h3, h4, h5, h6⟩ := h
  have hb : ∀ n : Nat, n % 10 ≤ 9 := fun n => Nat.le_of_lt_succ (Nat.mod_lt _ (by norm_num))
  have hm10 : d.month / 10 ≤ 9 := by omega
  have hd10 : d.day / 10 ≤ 9 := by
    have : d.day ≤ 31 := by
      have : daysInMonth d.year d.month ≤ 31 := by
        rw [daysInMonth]
        split
        · split <;> omega
        · split <;> omega
      omega
    omega
  have hform : parseDateString (formatDate d) =
      parseDate10 (digitChar (d.year / 1000 % 10)) (digitChar (d.year / 100 % 10))
        (digitChar (d.year / 10 % 10)) (digitChar (d.year % 10)) '/'
        (digitChar (d.month / 10)) (digitChar (d.month % 10)) '/'
        (digitChar (d.day / 10)) (digitChar (d.day % 10)) := rfl
  rw [hform, parseDate10,
    if_pos ⟨rfl, rfl, digitChar_isDigit _ (hb _), digitChar_isDigit _ (hb _),
      digitChar_isDigit _ (hb _), digitChar_isDigit _ (hb _),
      digitChar_isDigit _ hm10, digitChar_isDigit _ (hb _),
      digitChar_isDigit _ hd10, digitChar_isDigit _ (hb _)⟩,
    digitVal_digitChar _ (hb _), digitVal_digitChar _ (hb _),
    digitVal_digitChar _ (hb _), digitVal_digitChar _ (hb _),
    digitVal_digitChar _ hm10, digitVal_digitChar _ (hb _),
    digitVal_digitChar _ hd10, digitVal_digitChar _ (hb _)]
  have hY : d.year / 1000 % 10 * 1000 + d.year / 100 % 10 * 100 +
      d.year / 10 % 10 * 10 + d.year % 10 = d.year := by omega
  have hM : d.month / 10 * 10 + d.month % 10 = d.month := by omega
  have hD : d.day / 10 * 10 + d.day % 10 = d.day := by omega
  rw [hY, hM, hD, mkValidDate, if_pos ⟨h3, h4, h5, h6⟩]

/-- C9: serializing an Event to its 4 positional fields (as the test
helper `eventsToValueRange` does, dates formatted `YYYY/MM/DD`) and
re-parsing with `parseRow` yields the original Event, for every Event with
non-empty name, recognized interval label and valid civil dates. -/
theorem parseRow_serializeEvent_roundtrip (e : Event) (today : Date)
    (hn : e.Name ≠ "")
    (hi : lowerStr e.Interval ∈ ["onetime", "oneshot", "weekly", "monthly", "yearly"])
    (hvs : validDate e.Start) (hve : validDate e.End) :
    parseRow (serializeEvent e) today = .ok e := by
  have hint : e.Interval ≠ "" := by
    intro h0
    rw [h0] at hi
    revert hi
    decide
  have hfs := formatDate_ne_empty e.Start
  have hfe := formatDate_ne_empty e.End
  have h0 : parseValue [e.Name, e.Interval, formatDate e.Start, formatDate e.End]
      nameIdx = .ok e.Name := by
    rw [parseValue]
    simp only [nameIdx, List.get?]
    rw [if_neg hn]
  have h1 : parseValue [e.Name, e.Interval, formatDate e.Start, formatDate e.End]
      intervalIdx = .ok e.Interval := by
    rw [parseValue]
    simp only [intervalIdx, List.get?]
    rw [if_neg hint]
  have h2 : parseDate [e.Name, e.Interval, formatDate e.Start, formatDate e.End]
      startDateIdx today = .ok e.Start := by
    rw [parseDate]
    simp only [startDateIdx, List.get?]
    rw [if_neg hfs, parseDateString_formatDate e.Start hvs]
  have h3 : parseDate [e.Name, e.Interval, formatDate e.Start, formatDate e.End]
      endDateIdx today = .ok e.End := by
    rw [parseDate]
    simp only [endDateIdx, List.get?]
    rw [if_neg hfe, parseDateString_formatDate e.End hve]
  simp only [serializeEvent, parseRow, h0, h1, h2, h3]
  rfl

/-- C9, witness: a concrete weekly event round-trips through serialization
and `parseRow`. -/
theorem parseRow_serializeEvent_roundtrip_witness :
    parseRow (serializeEvent ⟨"Trash Day", "Weekly", ⟨2025, 1, 6⟩,
      ⟨2025, 12, 31⟩⟩) ⟨2025, 3, 3⟩ =
      .ok ⟨"Trash Day", "Weekly", ⟨2025, 1, 6⟩, ⟨2025, 12, 31⟩⟩ :=
  parseRow_serializeEvent_roundtrip
    ⟨"Trash Day", "Weekly", ⟨2025, 1, 6⟩, ⟨2025, 12, 31⟩⟩ ⟨2025, 3, 3⟩
    (by decide) (by decide) (by decide) (by decide)

end Homeops

-- sanity examples (concrete evaluations of the calendar embedding)
example : Homeops.weekday ⟨2025, 1, 1⟩ = 3 := by decide
example : Homeops.weekday ⟨1970, 1, 1⟩ = 4 := by decide
example : Homeops.lowerStr "WEEKLY" = "weekly" := by decide
example : Homeops.dateBefore ⟨2025, 1, 1⟩ ⟨2025, 1, 2⟩ = true := by decide
example : Homeops.dateLe ⟨2025, 1, 2⟩ ⟨2025, 1, 2⟩ = true := by decide
example : Homeops.parseDateString "2025/01/31" = some ⟨2025, 1, 31⟩ := by decide
example : Homeops.parseDateString "2025/02/29" = none := by decide
example : Homeops.parseDateString "2024/02/29" = some ⟨2024, 2, 29⟩ := by decide
example : Homeops.parseDateString "2025-01-31" = none := by decide
example : Homeops.parseDateString "not-a-date" = none := by decide
example : Homeops.formatDate ⟨2025, 1, 5⟩ = "2025/01/05" := by decide
example :
    Homeops.parseRow ["Valid Event", "Daily", "2025/01/01", "2025/01/02"]
       ⟨2025, 7, 1⟩ =
      .ok ⟨"Valid Event", "Daily", ⟨2025, 1, 1⟩, ⟨2025, 1, 2⟩⟩ := by decide
example :
    (Homeops.parseRow ["Invalid Event", "Daily", "2025-07-21"] ⟨2025, 7, 1⟩).isOk
      = false := by decide
example :
    Homeops.isMatch ⟨"A", "Weekly", ⟨2025, 1, 1⟩, ⟨2025, 12, 31⟩⟩ ⟨2025, 1, 8⟩
      = true := by decide
